import Mathlib

/-!
Verification of the Credential & Session Lifecycle Subsystem of the
mjs_microservice repository (auth-service).

The development shallowly embeds the relevant Python functions of
`src/auth-service/app/core/security.py`, the logout endpoint of
`src/auth-service/app/api/v1/auth.py`, the registration-saga completion
handler `src/auth-service/app/messaging/auth_handler.py`, the escrow helpers
of `src/auth-service/app/core/redis.py`, and the credential CRUD function
`create_with_user_id` of `src/auth-service/app/crud/auth_user.py`.

Modelling conventions:
* Time is modelled in whole seconds as `Int` (the code uses POSIX
  timestamps; sub-second fractions are abstracted away).
* The Redis store is an association list from key strings to values with an
  absolute expiry instant; `SETEX key ttl v` stores an entry that is alive
  at instants `now < expiry` (Redis rejects `SETEX` with a non-positive
  TTL, modelled by returning `none`).  `GET`/`DEL` treat an expired entry
  as absent, exactly as Redis does.
* A JWT is either a payload correctly signed with the service key pair
  (`Token.signed`) or any string that fails signature/structure checks
  (`Token.invalid`).  `jwtDecode` models `jose.jwt.decode` with the public
  key: it fails on a bad signature and on an `exp` claim in the past
  (numeric claims are modelled as `Jval.num`; a non-numeric `exp` claim
  makes decoding fail).
* JSON claim values are `Jval` (string or integer), payloads are
  association lists with Python-dict update semantics (`Payload.set`
  replaces the first binding in place or appends).
* Store values are `Val.plain s` (a raw string: the blacklist sentinel
  `"1"`, escrowed passwords, or any stored bytes that are not the JSON
  serialization of a refresh-token record) or `Val.tokenJson uid expAt`
  (the `json.dumps` of the refresh-token record written by
  `create_refresh_token`; either field may be absent in the JSON object).
-/

/-- JSON claim values appearing in token payloads. -/
inductive Jval where
  | str (s : String)
  | num (n : Int)
deriving DecidableEq, Repr

/-- Python truthiness of a claim value (`if not jti: ...`). -/
def Jval.truthy : Jval → Bool
  | .str s => s ≠ ""
  | .num n => n ≠ 0

/-- How a claim value is rendered inside an f-string such as
`f"blacklist_token:{jti}"`. -/
def Jval.render : Jval → String
  | .str s => s
  | .num n => toString n

/-- A JWT payload: a Python dict of claims, as an association list. -/
abbrev Payload := List (String × Jval)

/-- First binding of a key (Python `payload.get(k)`, dicts have unique keys). -/
def Payload.lookup : Payload → String → Option Jval
  | [], _ => none
  | (k, v) :: rest, key => if k = key then some v else Payload.lookup rest key

/-- Python dict update `payload.update({k: v})`: replace the first binding
in place, or append a new one. -/
def Payload.set : Payload → String → Jval → Payload
  | [], key, v => [(key, v)]
  | (k, v') :: rest, key, v =>
    if k = key then (key, v) :: rest else (k, v') :: Payload.set rest key v

/-- Values held by the key-value store. -/
inductive Val where
  | plain (s : String)
  | tokenJson (auth_user_id : Option String) (expires_at : Option Int)
deriving DecidableEq, Repr

/-- Rendering of an optional JSON string field. -/
def optJsonStr : Option String → String
  | some s => "\"" ++ s ++ "\""
  | none => "null"

/-- Rendering of an optional JSON integer field. -/
def optJsonInt : Option Int → String
  | some n => toString n
  | none => "null"

/-- The raw string a `GET` returns for a stored value. -/
def Val.render : Val → String
  | .plain s => s
  | .tokenJson a e =>
    "\x7b\"auth_user_id\": " ++ optJsonStr a ++ ", \"expires_at\": " ++ optJsonInt e ++ "\x7d"

/-- `json.loads` of a stored value, specialised to the refresh-token record
shape.  `Val.plain` models stored strings that are not valid JSON encodings
of a token record, so parsing them raises `json.JSONDecodeError`. -/
def parseTokenData : Val → Option (Option String × Option Int)
  | .plain _ => none
  | .tokenJson a e => some (a, e)

/-- The Redis database: entries `(key, value, absolute expiry instant)`. -/
abbrev Store := List (String × Val × Int)

/-- Raw entry lookup (first entry with the key, expired or not). -/
def Store.lookup : Store → String → Option (Val × Int)
  | [], _ => none
  | (k, v, e) :: rest, key => if k = key then some (v, e) else Store.lookup rest key

/-- Redis `GET key` at instant `now`: an expired entry is absent. -/
def Store.get (s : Store) (now : Int) (key : String) : Option Val :=
  match s.lookup key with
  | some (v, e) => if now < e then some v else none
  | none => none

/-- Remove every entry stored under `key`. -/
def Store.eraseKey : Store → String → Store
  | [], _ => []
  | (k, v, e) :: rest, key =>
    if k = key then Store.eraseKey rest key
    else (k, v, e) :: Store.eraseKey rest key

/-- Redis `SETEX key ttl v` at instant `now`.  Redis rejects a non-positive
TTL with an error (`none`); otherwise the key is bound until `now + ttl`. -/
def Store.setex (s : Store) (now : Int) (key : String) (ttl : Int) (v : Val) :
    Option Store :=
  if ttl ≤ 0 then none else some ((key, v, now + ttl) :: s.eraseKey key)

/-- Redis `DEL key` at instant `now`: returns the updated store and the
number of live keys removed (0 or 1; an expired entry counts as absent). -/
def Store.del (s : Store) (now : Int) (key : String) : Store × Nat :=
  (s.eraseKey key, if (s.get now key).isSome then 1 else 0)

/-- Service configuration (`app/core/config.py`), restricted to the fields
the verified functions read. -/
structure Config where
  TOKEN_BLACKLIST_ENABLED : Bool
  ACCESS_TOKEN_EXPIRE_MINUTES : Int
deriving DecidableEq, Repr

/-- A JWT string: either a payload genuinely signed with the service's
private key, or any string on which signature/structure verification
fails. -/
inductive Token where
  | signed (payload : Payload)
  | invalid
deriving DecidableEq, Repr

/-- `exp`-claim validation performed by `jose.jwt.decode` (leeway 0): absent
`exp` is accepted, a numeric `exp` fails exactly when it is in the past, a
non-numeric `exp` claim is rejected. -/
def expValid (p : Payload) (now : Int) : Bool :=
  match p.lookup "exp" with
  | none => true
  | some (.num e) => !(e < now)
  | some (.str _) => false

/-- `jose.jwt.decode(token, PUBLIC_KEY, algorithms=[ALGORITHM])` at instant
`now`: `none` models a raised `JWTError`. -/
def jwtDecode (tok : Token) (now : Int) : Option Payload :=
  match tok with
  | .signed p => if expValid p now then some p else none
  | .invalid => none

/-- Key of a revocation entry: `f"blacklist_token:{jti}"`. -/
def blacklistKey (jti : Jval) : String := "blacklist_token:" ++ jti.render

/-- Key of a refresh-token record: `f"refresh_token:{token}"`. -/
def refreshKey (token : String) : String := "refresh_token:" ++ token

/-- `create_access_token` (security.py lines 24–53): copies `data`, merges a
fresh `jti` and the absolute expiry `exp`, and signs with the private key.
The random `jti` is a parameter; a passed `expires_delta` of 0 seconds is
falsy in Python, so the default expiry applies.  Returns the token together
with the expiry instant it embeds. -/
def create_access_token (cfg : Config) (data : Payload) (jti : String)
    (now : Int) (expires_delta : Option Int) : Token × Int :=
  let expire : Int :=
    match expires_delta with
    | some d => if d = 0 then now + cfg.ACCESS_TOKEN_EXPIRE_MINUTES * 60 else now + d
    | none => now + cfg.ACCESS_TOKEN_EXPIRE_MINUTES * 60
  let payload := (data.set "jti" (.str jti)).set "exp" (.num expire)
  (.signed payload, expire)

/-- `blacklist_token` (security.py lines 56–92): returns `true` without
writing when the feature is disabled; otherwise decodes the token directly
(no blacklist check), refuses tokens with a falsy payload or a falsy/absent
`jti`, computes `ttl = max(int(exp - now), 0)` and writes the revocation
sentinel with `SETEX`.  An absent or non-numeric `exp` makes `exp - now`
raise, and a non-positive TTL makes `SETEX` raise; both are caught and
yield `false`. -/
def blacklist_token (cfg : Config) (store : Store) (now : Int) (token : Token) :
    Store × Bool :=
  if cfg.TOKEN_BLACKLIST_ENABLED = false then (store, true)
  else
    match jwtDecode token now with
    | none => (store, false)
    | some payload =>
      if payload.isEmpty then (store, false)
      else
        match payload.lookup "jti" with
        | none => (store, false)
        | some jti =>
          if jti.truthy = false then (store, false)
          else
            match payload.lookup "exp" with
            | some (.num exp) =>
              let ttl := max (exp - now) 0
              match store.setex now (blacklistKey jti) ttl (.plain "1") with
              | some s' => (s', true)
              | none => (store, false)
            | _ => (store, false)

/-- `is_token_blacklisted` (security.py lines 95–109): `false` when the
feature is disabled or the payload has a falsy/absent `jti`; otherwise a
registry lookup of the `jti`. -/
def is_token_blacklisted (cfg : Config) (store : Store) (now : Int)
    (payload : Payload) : Bool :=
  if cfg.TOKEN_BLACKLIST_ENABLED = false then false
  else
    match payload.lookup "jti" with
    | none => false
    | some jti =>
      if jti.truthy = false then false
      else (store.get now (blacklistKey jti)).isSome

/-- `verify_token` (security.py lines 111–134): decodes with the public key,
then rejects blacklisted payloads. -/
def verify_token (cfg : Config) (store : Store) (now : Int) (token : Token) :
    Option Payload :=
  match jwtDecode token now with
  | none => none
  | some payload =>
    if is_token_blacklisted cfg store now payload then none else some payload

/-- The `jwt.JWTError` raised by `verify_refresh_token` on an expired
record. -/
inductive JWTError where
  | expiredRefreshToken
deriving DecidableEq, Repr

/-- `revoke_refresh_token` (security.py lines 212–231): `DEL` of the record;
`true` iff a live record was removed. -/
def revoke_refresh_token (store : Store) (now : Int) (token : String) :
    Store × Bool :=
  let (s', n) := store.del now (refreshKey token)
  (s', decide (0 < n))

/-- `verify_refresh_token` (security.py lines 170–210): reads the record
(absent or empty ⇒ `None`), parses its JSON (`JSONDecodeError` ⇒ `None`,
record kept), deletes the record and raises `JWTError` when its embedded
`expires_at` (default 0) is in the past, else returns `auth_user_id`. -/
def verify_refresh_token (store : Store) (now : Int) (token : String) :
    Store × Except JWTError (Option String) :=
  match Store.get store now (refreshKey token) with
  | none => (store, .ok none)
  | some v =>
    if v.render = "" then (store, .ok none)
    else
      match parseTokenData v with
      | none => (store, .ok none)
      | some (uid, expAt) =>
        if expAt.getD 0 < now then
          let (s', _) := revoke_refresh_token store now token
          (s', .error .expiredRefreshToken)
        else (store, .ok uid)

/-- `create_refresh_token` (security.py lines 136–168) with the random token
string as a parameter: stores the record under the token value with TTL
equal to the configured lifetime in seconds. -/
def create_refresh_token (store : Store) (now : Int)
    (refreshDays : Int) (token : String) (auth_user_id : String) :
    Option Store :=
  let expirySeconds := refreshDays * 24 * 60 * 60
  let expiryTimestamp := now + expirySeconds
  store.setex now (refreshKey token) expirySeconds
    (.tokenJson (some auth_user_id) (some expiryTimestamp))

/-- Outcome of the logout endpoint. -/
inductive LogoutResult where
  | success
  | badRequest
deriving DecidableEq, Repr

/-- The `logout` endpoint (auth.py lines 133–190): revokes the refresh token
first and raises 400 on failure without touching the access token; then
blacklists the access token and raises 400 on failure; success only when
both steps succeed. -/
def logout (cfg : Config) (store : Store) (now : Int) (access_token : Token)
    (refresh_token : String) : Store × LogoutResult :=
  let (s1, refreshResult) := revoke_refresh_token store now refresh_token
  if refreshResult = false then (s1, .badRequest)
  else
    let (s2, blacklistResult) := blacklist_token cfg s1 now access_token
    if blacklistResult = false then (s2, .badRequest)
    else (s2, .success)

/-- `get_password_from_redis` (redis.py lines 54–75): `GET` of the escrow
key; an empty string is falsy and reported as absent. -/
def get_password_from_redis (store : Store) (now : Int) (key : String) :
    Option String :=
  match Store.get store now key with
  | none => none
  | some v => if v.render = "" then none else some v.render

/-- `delete_password_from_redis` (redis.py lines 77–98): `DEL` of the escrow
key; `true` iff a live key was removed. -/
def delete_password_from_redis (store : Store) (now : Int) (key : String) :
    Store × Bool :=
  let (s', n) := store.del now key
  (s', decide (0 < n))

/-- `save_password_to_redis` (redis.py lines 29–52): escrows the plaintext
password under `f"temp_password:{username}:{timestamp}"` with the given TTL
(default 300 s). -/
def save_password_to_redis (store : Store) (now : Int) (username : String)
    (password : String) (ttl_seconds : Int) : Option (Store × String) :=
  let key := "temp_password:" ++ username ++ ":" ++ toString now
  match store.setex now key ttl_seconds (.plain password) with
  | some s' => some (s', key)
  | none => none

/-- A row of the `auth_users` table (`app/models/auth_user.py`); `username`,
`email` and `user_id` carry unique constraints. -/
structure AuthUserRec where
  username : String
  email : String
  hashed_password : String
  user_id : String
deriving DecidableEq, Repr

/-- The auth-service database: the rows of `auth_users`. -/
abbrev DB := List AuthUserRec

/-- The CRUD exceptions raised by `create_with_user_id`
(`app/crud/exceptions.py`). -/
inductive CrudError where
  | duplicateUsername
  | duplicateEmail
  | duplicateUserId
deriving DecidableEq, Repr

/-- `CRUDAuthUser.create_with_user_id` (crud/auth_user.py lines 54–93):
inserts a row hashing the password with `get_password_hash` (the opaque
bcrypt hash, a parameter here); a violated unique constraint raises the
matching duplicate error, inspected in the order username, email,
user_id. -/
def create_with_user_id (hash : String → String) (db : DB) (username : String)
    (email : String) (password : String) (user_id : String) :
    Except CrudError (DB × AuthUserRec) :=
  if db.any (fun r => r.username = username) then .error .duplicateUsername
  else if db.any (fun r => r.email = email) then .error .duplicateEmail
  else if db.any (fun r => r.user_id = user_id) then .error .duplicateUserId
  else
    let rec_ : AuthUserRec :=
      { username := username, email := email,
        hashed_password := hash password, user_id := user_id }
    .ok (db ++ [rec_], rec_)

/-- A creation-completed message as consumed by
`handle_user_creation_response`: the durable `id` and the fields of
`original_request`.  Absent fields are `none`; Python also treats empty
strings as falsy. -/
structure MsgData where
  id : Option String
  username : Option String
  email : Option String
  password_key : Option String
deriving DecidableEq, Repr

/-- Python truthiness of an optional string field. -/
def strTruthy : Option String → Bool
  | some s => s ≠ ""
  | none => false

/-- `handle_user_creation_response` (auth_handler.py lines 12–78): validates
the message fields, reads the escrowed password (absent ⇒ silent return),
creates the local credential row, and only after a successful creation
deletes the escrow entry.  Every error is caught and logged, so the handler
always returns normally; its only effects are on the store and the
database, returned here as a pair. -/
def handle_user_creation_response (hash : String → String) (store : Store)
    (db : DB) (now : Int) (msg : MsgData) : Store × DB :=
  if strTruthy msg.id = false then (store, db)
  else if strTruthy msg.username = false then (store, db)
  else if strTruthy msg.email = false then (store, db)
  else if strTruthy msg.password_key = false then (store, db)
  else
    let key := msg.password_key.getD ""
    match get_password_from_redis store now key with
    | none => (store, db)
    | some password =>
      match create_with_user_id hash db (msg.username.getD "") (msg.email.getD "")
          password (msg.id.getD "") with
      | .error _ => (store, db)
      | .ok (db', _) =>
        let (s', _) := delete_password_from_redis store now key
        (s', db')

/-! ### Helper lemmas about the store and payload models -/

theorem Store.lookup_eraseKey_self (s : Store) (key : String) :
    (s.eraseKey key).lookup key = none := by
  induction s with
  | nil => rfl
  | cons ent rest ih =>
    obtain ⟨k, v, e⟩ := ent
    by_cases h : k = key
    · simp only [Store.eraseKey, if_pos h]
      exact ih
    · simp only [Store.eraseKey, if_neg h, Store.lookup, if_neg h]
      exact ih

theorem Store.lookup_eraseKey_ne (s : Store) {key key' : String}
    (h : key ≠ key') : (s.eraseKey key').lookup key = s.lookup key := by
  induction s with
  | nil => rfl
  | cons ent rest ih =>
    obtain ⟨k, v, e⟩ := ent
    by_cases hk : k = key'
    · simp only [Store.eraseKey, if_pos hk, Store.lookup, ih]
      rw [if_neg]
      intro hkk
      exact h (hkk ▸ hk)
    · simp only [Store.eraseKey, if_neg hk, Store.lookup]
      by_cases hkey : k = key
      · simp [hkey]
      · simp only [if_neg hkey]
        exact ih

theorem Store.get_eraseKey_self (s : Store) (now : Int) (key : String) :
    (s.eraseKey key).get now key = none := by
  unfold Store.get
  rw [Store.lookup_eraseKey_self]

theorem Store.get_eraseKey_ne (s : Store) (now : Int) {key key' : String}
    (h : key ≠ key') : (s.eraseKey key').get now key = s.get now key := by
  unfold Store.get
  rw [Store.lookup_eraseKey_ne s h]

theorem Store.setex_lookup_self {s s' : Store} {now ttl : Int} {key : String}
    {v : Val} (h : s.setex now key ttl v = some s') :
    s'.lookup key = some (v, now + ttl) := by
  unfold Store.setex at h
  by_cases httl : ttl ≤ 0
  · simp [httl] at h
  · simp only [if_neg httl, Option.some.injEq] at h
    subst h
    simp [Store.lookup]

theorem Store.setex_lookup_ne {s s' : Store} {now ttl : Int} {key key' : String}
    {v : Val} (h : s.setex now key ttl v = some s') (hne : key' ≠ key) :
    s'.lookup key' = s.lookup key' := by
  unfold Store.setex at h
  by_cases httl : ttl ≤ 0
  · simp [httl] at h
  · simp only [if_neg httl, Option.some.injEq] at h
    subst h
    simp only [Store.lookup]
    rw [if_neg (fun hk => hne hk.symm)]
    exact Store.lookup_eraseKey_ne s hne

theorem Payload.lookup_set_self (p : Payload) (key : String) (v : Jval) :
    (p.set key v).lookup key = some v := by
  induction p with
  | nil => simp [Payload.set, Payload.lookup]
  | cons ent rest ih =>
    obtain ⟨k, v'⟩ := ent
    by_cases h : k = key
    · simp [Payload.set, h, Payload.lookup]
    · simp only [Payload.set, if_neg h, Payload.lookup, if_neg h]
      exact ih

theorem Payload.lookup_set_ne (p : Payload) {key key' : String} (v : Jval)
    (h : key' ≠ key) : (p.set key v).lookup key' = p.lookup key' := by
  induction p with
  | nil =>
    simp only [Payload.set, Payload.lookup]
    rw [if_neg (fun hk => h hk.symm)]
  | cons ent rest ih =>
    obtain ⟨k, v'⟩ := ent
    by_cases hk : k = key
    · subst hk
      simp only [Payload.set, if_pos rfl, Payload.lookup]
      rw [if_neg (fun hkk => h hkk.symm), if_neg (fun hkk => h hkk.symm)]
    · simp only [Payload.set, if_neg hk, Payload.lookup]
      by_cases hkey : k = key'
      · simp [hkey]
      · simp only [if_neg hkey]
        exact ih

theorem refreshKey_ne_blacklistKey (t : String) (j : Jval) :
    refreshKey t ≠ blacklistKey j := by
  intro h
  have h2 : ("refresh_token:" ++ t).data = ("blacklist_token:" ++ j.render).data :=
    congrArg String.data h
  rw [String.data_append, String.data_append,
    show "refresh_token:".data = 'r' :: "efresh_token:".data from rfl,
    show "blacklist_token:".data = 'b' :: "lacklist_token:".data from rfl,
    List.cons_append, List.cons_append] at h2
  injection h2 with h3 _
  exact absurd h3 (by decide)

/-! ### Shared concrete fixtures -/

/-- A configuration with the blacklist feature enabled (the default
`TOKEN_BLACKLIST_ENABLED: bool = True` of config.py). -/
def cfgOn : Config := { TOKEN_BLACKLIST_ENABLED := true, ACCESS_TOKEN_EXPIRE_MINUTES := 30 }

/-- A configuration with the blacklist feature disabled. -/
def cfgOff : Config := { TOKEN_BLACKLIST_ENABLED := false, ACCESS_TOKEN_EXPIRE_MINUTES := 30 }

/-! ### Claims -/

/-- C2: token round-trip (P1).  For every claims dictionary `data`,
verifying a token freshly issued from `data` — strictly before its expiry
`E` and with no revocation entry for the generated `jti` — succeeds and
returns exactly `data` updated with the generated `jti` and the computed
`exp`. -/
theorem token_round_trip (cfg : Config) (data : Payload) (jti : String)
    (now : Int) (delta : Option Int) (tok : Token) (E : Int) (store : Store)
    (now' : Int)
    (hca : create_access_token cfg data jti now delta = (tok, E))
    (hfresh : now' < E)
    (hnorev : store.get now' (blacklistKey (.str jti)) = none) :
    verify_token cfg store now' tok =
      some ((data.set "jti" (.str jti)).set "exp" (.num E)) := by
  have h1 : tok = (create_access_token cfg data jti now delta).1 := by rw [hca]
  have h2 : E = (create_access_token cfg data jti now delta).2 := by rw [hca]
  subst h1
  subst h2
  have hP : (create_access_token cfg data jti now delta).1 =
      Token.signed ((data.set "jti" (.str jti)).set "exp"
        (.num (create_access_token cfg data jti now delta).2)) := rfl
  rw [hP]
  set E := (create_access_token cfg data jti now delta).2 with hE
  have hexp : Payload.lookup ((data.set "jti" (.str jti)).set "exp" (.num E)) "exp" =
      some (.num E) := Payload.lookup_set_self _ _ _
  have hjti : Payload.lookup ((data.set "jti" (.str jti)).set "exp" (.num E)) "jti" =
      some (.str jti) := by
    rw [Payload.lookup_set_ne _ _ (by decide)]
    exact Payload.lookup_set_self _ _ _
  have hvalid : expValid ((data.set "jti" (.str jti)).set "exp" (.num E)) now' = true := by
    unfold expValid
    rw [hexp]
    simp only [Bool.not_eq_true', decide_eq_false_iff_not, not_lt]
    omega
  have hbl : is_token_blacklisted cfg store now'
      ((data.set "jti" (.str jti)).set "exp" (.num E)) = false := by
    unfold is_token_blacklisted
    by_cases hen : cfg.TOKEN_BLACKLIST_ENABLED = false
    · simp [hen]
    · simp only [if_neg hen, hjti]
      by_cases htr : Jval.truthy (.str jti) = false
      · simp [htr]
      · simp only [if_neg htr, hnorev, Option.isSome_none]
  unfold verify_token jwtDecode
  simp [hvalid, hbl]

/-- C2 witness: a concrete round trip. -/
theorem token_round_trip_witness :
    create_access_token cfgOn [("sub", .str "u1")] "J" 0 (some 60) =
      (.signed [("sub", .str "u1"), ("jti", .str "J"), ("exp", .num 60)], 60) ∧
    ((10 : Int) < 60) ∧
    (Store.get [] 10 (blacklistKey (.str "J")) = none) ∧
    verify_token cfgOn [] 10
        (.signed [("sub", .str "u1"), ("jti", .str "J"), ("exp", .num 60)]) =
      some [("sub", .str "u1"), ("jti", .str "J"), ("exp", .num 60)] := by
  refine ⟨by decide, by decide, by decide, ?_⟩
  exact token_round_trip cfgOn [("sub", .str "u1")] "J" 0 (some 60)
    (.signed [("sub", .str "u1"), ("jti", .str "J"), ("exp", .num 60)]) 60 [] 10
    (by decide) (by decide) (by decide)

/-- C5: refresh-token single use after revoke (P3).  After
`revoke_refresh_token` succeeds on `t`, verifying `t` against the resulting
store (no intervening issuance of the same token value) returns `None`
(Invalid) and raises nothing: the record is absent. -/
theorem revoked_refresh_token_invalid (store : Store) (now now' : Int)
    (t : String)
    (_hrev : (revoke_refresh_token store now t).2 = true) :
    verify_refresh_token (revoke_refresh_token store now t).1 now' t =
      ((revoke_refresh_token store now t).1, .ok none) := by
  have h1 : (revoke_refresh_token store now t).1 = store.eraseKey (refreshKey t) := rfl
  rw [h1]
  unfold verify_refresh_token
  rw [Store.get_eraseKey_self]

/-- C5 witness: revoking a live record, then verifying. -/
theorem revoked_refresh_token_invalid_witness :
    ((revoke_refresh_token [(refreshKey "r", .tokenJson (some "u") (some 100), 100)] 0 "r").2
      = true) ∧
    verify_refresh_token
        (revoke_refresh_token [(refreshKey "r", .tokenJson (some "u") (some 100), 100)] 0 "r").1
        5 "r" =
      ((revoke_refresh_token [(refreshKey "r", .tokenJson (some "u") (some 100), 100)] 0 "r").1,
        .ok none) := by
  refine ⟨by decide, ?_⟩
  exact revoked_refresh_token_invalid
    [(refreshKey "r", .tokenJson (some "u") (some 100), 100)] 0 5 "r" (by decide)

/-- C7: tokens without a `jti` are never revocable.  With the blacklist
feature enabled, a validly signed token whose payload lacks a `jti` makes
`blacklist_token` return `false` with the registry untouched, and
`is_token_blacklisted` returns `false` on such a payload for every store
(so in particular without depending on the store). -/
theorem no_jti_never_revocable (cfg : Config) (store : Store) (now : Int)
    (p : Payload)
    (hen : cfg.TOKEN_BLACKLIST_ENABLED = true)
    (hjti : p.lookup "jti" = none) :
    blacklist_token cfg store now (.signed p) = (store, false) ∧
    is_token_blacklisted cfg store now p = false := by
  constructor
  · unfold blacklist_token jwtDecode
    rw [hen]
    by_cases hv : expValid p now = true
    · simp only [hv, if_true]
      by_cases hemp : p.isEmpty = true
      · simp [hemp]
      · simp [hemp, hjti]
    · simp [hv]
  · unfold is_token_blacklisted
    rw [hen]
    simp [hjti]

/-- C7 witness: a signed token whose payload has no `jti`. -/
theorem no_jti_never_revocable_witness :
    blacklist_token cfgOn [] 0 (.signed [("sub", .str "u")]) = ([], false) ∧
    is_token_blacklisted cfgOn [] 0 [("sub", .str "u")] = false := by
  have h := no_jti_never_revocable cfgOn [] 0 [("sub", .str "u")] (by decide) (by decide)
  exact h

/-- C10: a refresh-token record that is present but whose stored value is
not valid JSON makes `verify_refresh_token` return `None` (no exception is
raised) and leaves the store — in particular the malformed record —
untouched. -/
theorem malformed_refresh_record_returns_none (store : Store) (now : Int)
    (t s : String)
    (hval : store.get now (refreshKey t) = some (.plain s)) :
    verify_refresh_token store now t = (store, .ok none) := by
  unfold verify_refresh_token
  rw [hval]
  by_cases hs : s = ""
  · simp [hs, Val.render]
  · simp [hs, Val.render, parseTokenData]

/-- C10 witness: a record holding a non-JSON string. -/
theorem malformed_refresh_record_returns_none_witness :
    (Store.get [(refreshKey "t", Val.plain "corrupt", 100)] 0 (refreshKey "t") =
      some (.plain "corrupt")) ∧
    verify_refresh_token [(refreshKey "t", Val.plain "corrupt", 100)] 0 "t" =
      ([(refreshKey "t", Val.plain "corrupt", 100)], .ok none) := by
  refine ⟨by decide, ?_⟩
  exact malformed_refresh_record_returns_none
    [(refreshKey "t", Val.plain "corrupt", 100)] 0 "t" "corrupt" (by decide)

/-- C1 counterexample: `verify_token` (the code's composed verification) does
consult revocation state.  The same signed token, at the same instant,
verifies against the empty registry but is rejected once a revocation entry
for its `jti` is present: its outcome does not depend only on the token,
the public key and the clock. -/
theorem verify_token_reads_revocation_state :
    verify_token cfgOn [] 0 (.signed [("jti", .str "j"), ("exp", .num 100)]) ≠
    verify_token cfgOn [(blacklistKey (.str "j"), .plain "1", 100)] 0
      (.signed [("jti", .str "j"), ("exp", .num 100)]) := by
  decide

/-- C1 (amended): only the bare decode step (`jwtDecode`, the model of
`jose.jwt.decode` with the public key) is independent of revocation state;
`verify_token` layers the blacklist lookup on top of it, so its result
agrees across all pairs of registry states exactly in the cases where that
lookup is skipped: when the blacklist feature is disabled, or when the
decoded payload carries no truthy `jti`. -/
theorem verify_token_state_independent_cases (cfg : Config) (tok : Token)
    (now : Int) (s1 s2 : Store)
    (h : cfg.TOKEN_BLACKLIST_ENABLED = false ∨
      ∀ p j, jwtDecode tok now = some p → p.lookup "jti" = some j →
        j.truthy = false) :
    verify_token cfg s1 now tok = verify_token cfg s2 now tok := by
  unfold verify_token
  cases hdec : jwtDecode tok now with
  | none => rfl
  | some p =>
    have hsame : is_token_blacklisted cfg s1 now p = is_token_blacklisted cfg s2 now p := by
      unfold is_token_blacklisted
      rcases h with hdis | hjti
      · simp [hdis]
      · by_cases hen : cfg.TOKEN_BLACKLIST_ENABLED = false
        · simp [hen]
        · simp only [if_neg hen]
          cases hj : p.lookup "jti" with
          | none => rfl
          | some j =>
            have htr : j.truthy = false := hjti p j hdec hj
            simp [htr]
    simp only [hsame]

/-- C1 (amended) witness: with the feature disabled, two different registry
states give the same verification result. -/
theorem verify_token_state_independent_cases_witness :
    cfgOff.TOKEN_BLACKLIST_ENABLED = false ∧
    verify_token cfgOff [] 0 (.signed [("jti", .str "j"), ("exp", .num 100)]) =
      verify_token cfgOff [(blacklistKey (.str "j"), .plain "1", 100)] 0
        (.signed [("jti", .str "j"), ("exp", .num 100)]) := by
  refine ⟨rfl, ?_⟩
  exact verify_token_state_independent_cases cfgOff
    (.signed [("jti", .str "j"), ("exp", .num 100)]) 0 []
    [(blacklistKey (.str "j"), .plain "1", 100)] (Or.inl rfl)

/-- C3: logout atomicity boundary (P5).  When the refresh token is absent
from the store, `logout` fails with 400 and access-token blacklisting is
never attempted: every revocation-registry key (in particular the entry of
the supplied access token's `jti`) reads the same as before the call. -/
theorem logout_refresh_failure_frame (cfg : Config) (store : Store) (now : Int)
    (access_token : Token) (rt : String)
    (habs : store.get now (refreshKey rt) = none) :
    (logout cfg store now access_token rt).2 = .badRequest ∧
    ∀ (j : Jval) (t : Int),
      (logout cfg store now access_token rt).1.get t (blacklistKey j) =
        store.get t (blacklistKey j) := by
  have hrev : revoke_refresh_token store now rt =
      (store.eraseKey (refreshKey rt), false) := by
    unfold revoke_refresh_token Store.del
    rw [habs]
    rfl
  have hlog : logout cfg store now access_token rt =
      (store.eraseKey (refreshKey rt), .badRequest) := by
    simp [logout, hrev]
  rw [hlog]
  refine ⟨rfl, fun j t => ?_⟩
  exact Store.get_eraseKey_ne store t (Ne.symm (refreshKey_ne_blacklistKey rt j))

/-- C3 witness: logging out with a refresh token that is not in the store. -/
theorem logout_refresh_failure_frame_witness :
    (Store.get [] 0 (refreshKey "r") = none) ∧
    (logout cfgOn [] 0 (.signed [("jti", .str "j"), ("exp", .num 100)]) "r").2 =
      .badRequest ∧
    (logout cfgOn [] 0 (.signed [("jti", .str "j"), ("exp", .num 100)]) "r").1.get 0
        (blacklistKey (.str "j")) =
      Store.get [] 0 (blacklistKey (.str "j")) := by
  have h := logout_refresh_failure_frame cfgOn [] 0
    (.signed [("jti", .str "j"), ("exp", .num 100)]) "r" (by decide)
  exact ⟨by decide, h.1, h.2 (.str "j") 0⟩

/-- Helper for C4: whatever its outcome, `blacklist_token` only ever writes
under a `blacklist_token:` key, so every `refresh_token:` key reads as
before. -/
theorem blacklist_preserves_refresh_lookup (cfg : Config) (s : Store) (now : Int)
    (tok : Token) (t : String) :
    ((blacklist_token cfg s now tok).1).lookup (refreshKey t) =
      s.lookup (refreshKey t) := by
  unfold blacklist_token
  by_cases hen : cfg.TOKEN_BLACKLIST_ENABLED = false
  · simp [hen]
  · simp only [if_neg hen]
    cases hdec : jwtDecode tok now with
    | none => rfl
    | some p =>
      by_cases hemp : p.isEmpty = true
      · simp [hemp]
      · simp only [hemp, if_false]
        cases hjti : p.lookup "jti" with
        | none => rfl
        | some j =>
          by_cases htr : j.truthy = false
          · simp [htr]
          · simp only [if_neg htr]
            cases hexp : p.lookup "exp" with
            | none => rfl
            | some v =>
              cases v with
              | str s' => rfl
              | num e =>
                cases hset : s.setex now (blacklistKey j) (max (e - now) 0)
                    (.plain "1") with
                | none => simp [hset]
                | some s2 =>
                  simp only [hset]
                  exact Store.setex_lookup_ne hset (refreshKey_ne_blacklistKey t j)

/-- C4: logout asymmetry.  When refresh-token revocation succeeds but
access-token blacklisting then fails, `logout` reports failure (400), and
the refresh-token record remains deleted — the revocation is not rolled
back. -/
theorem logout_blacklist_failure_not_rolled_back (cfg : Config) (store : Store)
    (now : Int) (access_token : Token) (rt : String)
    (hrev : (revoke_refresh_token store now rt).2 = true)
    (hbl : (blacklist_token cfg (revoke_refresh_token store now rt).1 now
      access_token).2 = false) :
    (logout cfg store now access_token rt).2 = .badRequest ∧
    ∀ t, (logout cfg store now access_token rt).1.get t (refreshKey rt) = none := by
  have hlook : ((blacklist_token cfg (revoke_refresh_token store now rt).1 now
      access_token).1).lookup (refreshKey rt) = none := by
    rw [blacklist_preserves_refresh_lookup]
    have hs1 : (revoke_refresh_token store now rt).1 =
        store.eraseKey (refreshKey rt) := rfl
    rw [hs1, Store.lookup_eraseKey_self]
  have hlog : logout cfg store now access_token rt =
      ((blacklist_token cfg (revoke_refresh_token store now rt).1 now
        access_token).1, .badRequest) := by
    rcases hR : revoke_refresh_token store now rt with ⟨s1, b⟩
    have hb : b = true := by rw [hR] at hrev; exact hrev
    subst hb
    rcases hB : blacklist_token cfg s1 now access_token with ⟨s2, c⟩
    have hc : c = false := by simp [hR, hB] at hbl; exact hbl
    subst hc
    simp [logout, hR, hB]
  rw [hlog]
  refine ⟨rfl, fun t => ?_⟩
  unfold Store.get
  rw [hlook]

/-- C4 witness: a live refresh record together with an unverifiable access
token (its blacklisting fails). -/
theorem logout_blacklist_failure_not_rolled_back_witness :
    ((revoke_refresh_token [(refreshKey "r", .tokenJson (some "u") (some 100), 100)]
        0 "r").2 = true) ∧
    ((blacklist_token cfgOn
        (revoke_refresh_token [(refreshKey "r", .tokenJson (some "u") (some 100), 100)]
          0 "r").1 0 .invalid).2 = false) ∧
    (logout cfgOn [(refreshKey "r", .tokenJson (some "u") (some 100), 100)] 0
        .invalid "r").2 = .badRequest ∧
    (logout cfgOn [(refreshKey "r", .tokenJson (some "u") (some 100), 100)] 0
        .invalid "r").1.get 0 (refreshKey "r") = none := by
  have h := logout_blacklist_failure_not_rolled_back cfgOn
    [(refreshKey "r", .tokenJson (some "u") (some 100), 100)] 0 .invalid "r"
    (by decide) (by decide)
  exact ⟨by decide, by decide, h.1, h.2 0⟩

/-- C6: revocation is self-expiring and never outlives the token (P2).
With the registry enabled, running `blacklist_token` on a validly signed
token whose payload carries a non-empty `jti` `j` and a numeric expiry `e`
still in the future succeeds and writes the sentinel under `j`'s key with
absolute expiry exactly `e` — a TTL of `max(e - now, 0) = e - now`
remaining seconds, never longer (and a run whose remaining TTL is not
positive cannot succeed, since `SETEX` rejects it) — so
`is_token_blacklisted` on the token's claims is true at exactly the
instants before `e`: from revocation until the token's original expiry and
false after the entry's TTL elapses. -/
theorem blacklist_ttl_matches_expiry (cfg : Config) (store : Store) (now : Int)
    (p : Payload) (j : String) (e : Int)
    (hen : cfg.TOKEN_BLACKLIST_ENABLED = true)
    (hjti : p.lookup "jti" = some (.str j))
    (hexp : p.lookup "exp" = some (.num e))
    (hj : j ≠ "")
    (hfresh : now < e) :
    blacklist_token cfg store now (.signed p) =
      ((blacklistKey (.str j), .plain "1", e) ::
        store.eraseKey (blacklistKey (.str j)), true) ∧
    ∀ t, is_token_blacklisted cfg
        ((blacklistKey (.str j), .plain "1", e) ::
          store.eraseKey (blacklistKey (.str j))) t p =
      decide (t < e) := by
  have hvalid : expValid p now = true := by
    unfold expValid
    rw [hexp]
    simp only [Bool.not_eq_true', decide_eq_false_iff_not, not_lt]
    omega
  have hemp : p.isEmpty = false := by
    cases p with
    | nil => simp [Payload.lookup] at hjti
    | cons a l => rfl
  have htr : Jval.truthy (.str j) = true := by simp [Jval.truthy, hj]
  have hmax : max (e - now) 0 = e - now := max_eq_left (by omega)
  have hpos : ¬ (e - now ≤ 0) := by omega
  have hsum : now + (e - now) = e := by ring
  constructor
  · simp [blacklist_token, jwtDecode, hen, hvalid, hemp, hjti, htr, hexp,
      Store.setex, hmax, hpos, hsum]
  · intro t
    unfold is_token_blacklisted
    rw [hen]
    simp only [Bool.true_eq_false, if_false, hjti, htr, Bool.true_eq_false]
    unfold Store.get Store.lookup
    simp only [if_pos rfl]
    by_cases ht : t < e
    · simp [ht]
    · simp [ht]

/-- C6 witness: a concrete signed token revoked at instant 0 with expiry
100; the registry holds its `jti` before instant 100 and not after. -/
theorem blacklist_ttl_matches_expiry_witness :
    blacklist_token cfgOn [] 0 (.signed [("jti", .str "J"), ("exp", .num 100)]) =
      ([(blacklistKey (.str "J"), .plain "1", 100)], true) ∧
    is_token_blacklisted cfgOn [(blacklistKey (.str "J"), .plain "1", 100)] 50
        [("jti", .str "J"), ("exp", .num 100)] = true ∧
    is_token_blacklisted cfgOn [(blacklistKey (.str "J"), .plain "1", 100)] 100
        [("jti", .str "J"), ("exp", .num 100)] = false := by
  have h := blacklist_ttl_matches_expiry cfgOn [] 0
    [("jti", .str "J"), ("exp", .num 100)] "J" 100 rfl (by decide) (by decide)
    (by decide) (by decide)
  refine ⟨h.1, ?_, ?_⟩
  · have h50 := h.2 50
    simp only [Store.eraseKey] at h50
    rw [h50]
    decide
  · have h100 := h.2 100
    simp only [Store.eraseKey] at h100
    rw [h100]
    decide

/-- C8: saga silent abandonment (Scenario E).  When the escrow key named by
a creation-completed message is absent from the store (TTL elapsed or
already consumed), the completion handler creates no local credential
record and deletes nothing — store and database are returned unchanged —
and, the handler being a total function into `Store × DB`, it surfaces no
error: it returns normally. -/
theorem saga_abandoned_no_effects (hash : String → String) (store : Store)
    (db : DB) (now : Int) (msg : MsgData) (k : String)
    (hkey : msg.password_key = some k)
    (habs : get_password_from_redis store now k = none) :
    handle_user_creation_response hash store db now msg = (store, db) := by
  unfold handle_user_creation_response
  split_ifs with h1 h2 h3 h4
  · rfl
  · rfl
  · rfl
  · rfl
  · rw [hkey]
    simp only [Option.getD_some]
    rw [habs]

/-- C8 witness: a completion message whose escrow key is not in the store. -/
theorem saga_abandoned_no_effects_witness :
    (get_password_from_redis [] 0 "K" = none) ∧
    handle_user_creation_response id [] [] 0
        ⟨some "U", some "bob", some "bob@example.com", some "K"⟩ = ([], []) := by
  refine ⟨by decide, ?_⟩
  exact saga_abandoned_no_effects id [] [] 0
    ⟨some "U", some "bob", some "bob@example.com", some "K"⟩ "K" rfl (by decide)

/-- C9: saga finalize failure preserves the escrow.  When the escrow key is
present (holding password `pw`), a failing local credential creation (e.g.
a duplicate username/email) leaves the escrow entry un-deleted — the
handler changes nothing — while a successful creation is followed by
deletion of the escrow entry, after which the key reads absent. -/
theorem saga_finalize_escrow_discipline (hash : String → String) (store : Store)
    (db : DB) (now : Int) (msg : MsgData) (k pw : String)
    (hid : strTruthy msg.id = true) (hun : strTruthy msg.username = true)
    (hem : strTruthy msg.email = true)
    (hkey : msg.password_key = some k) (hk : strTruthy msg.password_key = true)
    (hpw : get_password_from_redis store now k = some pw) :
    (∀ err, create_with_user_id hash db (msg.username.getD "") (msg.email.getD "")
        pw (msg.id.getD "") = .error err →
      handle_user_creation_response hash store db now msg = (store, db)) ∧
    (∀ db' r, create_with_user_id hash db (msg.username.getD "") (msg.email.getD "")
        pw (msg.id.getD "") = .ok (db', r) →
      handle_user_creation_response hash store db now msg =
        (store.eraseKey k, db') ∧
      get_password_from_redis (store.eraseKey k) now k = none) := by
  have hrun : handle_user_creation_response hash store db now msg =
      (match create_with_user_id hash db (msg.username.getD "") (msg.email.getD "")
          pw (msg.id.getD "") with
       | .error _ => (store, db)
       | .ok (db', _) => (store.eraseKey k, db')) := by
    have hks : strTruthy (some k) = true := by rw [← hkey]; exact hk
    unfold handle_user_creation_response
    simp only [hid, hun, hem, hk, hks, hkey, Option.getD_some, Bool.true_eq_false,
      if_false, hpw, delete_password_from_redis, Store.del]
  constructor
  · intro err herr
    rw [hrun, herr]
  · intro db' r hok
    rw [hrun, hok]
    refine ⟨rfl, ?_⟩
    unfold get_password_from_redis
    rw [Store.get_eraseKey_self]

/-- C9 witness: a present escrow entry, an empty database (so creation
succeeds), and the resulting deletion of the escrow entry. -/
theorem saga_finalize_escrow_discipline_witness :
    (get_password_from_redis [("K", Val.plain "pw", 300)] 0 "K" = some "pw") ∧
    handle_user_creation_response id [("K", Val.plain "pw", 300)] [] 0
        ⟨some "U", some "bob", some "bob@example.com", some "K"⟩ =
      (Store.eraseKey [("K", Val.plain "pw", 300)] "K",
        [{ username := "bob", email := "bob@example.com",
           hashed_password := "pw", user_id := "U" }]) ∧
    get_password_from_redis (Store.eraseKey [("K", Val.plain "pw", 300)] "K") 0 "K" =
      none := by
  have h := saga_finalize_escrow_discipline id [("K", Val.plain "pw", 300)] [] 0
    ⟨some "U", some "bob", some "bob@example.com", some "K"⟩ "K" "pw"
    (by decide) (by decide) (by decide) rfl (by decide) (by decide)
  have h2 := h.2
    [{ username := "bob", email := "bob@example.com",
       hashed_password := "pw", user_id := "U" }]
    { username := "bob", email := "bob@example.com",
      hashed_password := "pw", user_id := "U" } rfl
  exact ⟨by decide, h2.1, h2.2⟩
